import Mathlib

/-!
Verification of the stock-ledger behavior of the inventory system.

The repository exposes two front ends over the same QuestDB tables
(`products`, `stock`, `stock_transactions`):

* a Flask REST API (`inventory/src/inventory-rest-api.py`), and
* a gRPC servicer (`inventory/src/grpc_server.py`).

This development embeds the stock-handling endpoints of both front ends as
pure functions over an explicit `Store` value. The `stock` and
`stock_transactions` tables are append-only; QuestDB timestamps (`now()`)
are monotone, so "latest row" for a product is the last inserted row for
that product and the tables are modelled as lists in insertion order.

Each `execute_query` call against the store is recorded in an access log,
and each INSERT is parameterised by a boolean saying whether the store
accepted it (QuestDB returning an error leaves the row unwritten while the
handler continues), so that partial-write and ordering behavior is visible
in the model.
-/

namespace Inventory

/-- A row of the `stock` table: product id, quantity, location.
The `last_updated` timestamp is represented by the row's position in the
list (rows are appended with `now()`, which is monotone). -/
structure Snapshot where
  product_id : String
  quantity : Int
  location : String
deriving Repr, DecidableEq

/-- A row of the `stock_transactions` table, with the columns inserted by
both handlers: id, product id, type string, requested quantity, quantity
before, quantity after, reason. The `timestamp` column is the row's
position in the list. -/
structure Transaction where
  txn_id : String
  product_id : String
  txn_type : String
  quantity : Int
  quantity_before : Int
  quantity_after : Int
  reason : String
deriving Repr, DecidableEq

/-- One `execute_query` access to QuestDB, as issued by the handlers on the
stock paths: the latest-stock SELECT, or one of the two INSERTs. -/
inductive Query where
  | readStock (product_id : String)
  | insertStock (row : Snapshot)
  | insertTxn (row : Transaction)
deriving Repr, DecidableEq

/-- The QuestDB state visible to the stock endpoints: the `products` table
(only ids matter here), the append-only `stock` and `stock_transactions`
tables, and the log of every query issued so far. -/
structure Store where
  products : List String
  stock : List Snapshot
  stock_transactions : List Transaction
  log : List Query
deriving Repr, DecidableEq

/-- The empty database. -/
def initStore : Store := ⟨[], [], [], []⟩

/-- `SELECT * FROM stock WHERE product_id = '<p>' ORDER BY last_updated DESC
LIMIT 1`: the last inserted `stock` row for `p`, if any. -/
def latestSnapshot (st : Store) (p : String) : Option Snapshot :=
  (st.stock.filter (fun s => s.product_id = p)).getLast?

/-- The `current_quantity` both handlers derive from the latest-stock query:
the quantity of the latest snapshot, or `0` when `count` is 0 (no row). -/
def currentQuantity (st : Store) (p : String) : Int :=
  ((latestSnapshot st p).map Snapshot.quantity).getD 0

namespace Rest

/-- The JSON body of `POST /api/stock/update` as read by `update_stock`:
every field except `product_id` may be absent (`data.get` with a default). -/
structure UpdateRequest where
  product_id : String
  quantity : Option Int
  type : Option String
  location : Option String
  reason : Option String
deriving Repr, DecidableEq

/-- The HTTP response of `POST /api/stock/update`: the 200 success payload
(`transaction_id`, `previous_stock`, `new_stock`, `change`), or an error
status with its message. -/
inductive UpdateResp where
  | ok (transaction_id : String) (previous_stock new_stock change : Int)
  | err (status : Nat) (message : String)
deriving Repr, DecidableEq

/-- The HTTP response of `GET /api/stock/<product_id>`: the status code and
the quantity carried in the body (the latest row's quantity on 200, the
literal `"quantity": 0` field on 404). -/
structure GetResp where
  status : Nat
  quantity : Int
deriving Repr, DecidableEq

/-- `get_stock` (REST, lines 93-106): selects the latest `stock` row for the
product; returns it with 200, or 404 `{"error": "Stock not found",
"quantity": 0}` when no row exists. -/
def get_stock (st : Store) (product_id : String) : GetResp × Store :=
  let stRead : Store := { st with log := st.log ++ [Query.readStock product_id] }
  match latestSnapshot st product_id with
  | some row => ({ status := 200, quantity := row.quantity }, stRead)
  | none => ({ status := 404, quantity := 0 }, stRead)

/-- The stock level `update_stock` computes before its negative check
(REST lines 139-153): latest quantity (default 0), then
`+ quantity` for `IN`, `- quantity` for `OUT`, `quantity` itself otherwise
(the `else` branch covers `ADJUSTMENT` and every other type string). -/
def newQuantity (st : Store) (req : UpdateRequest) : Int :=
  let quantity_change := req.quantity.getD 0
  let transaction_type := req.type.getD "ADJUSTMENT"
  let current_quantity := currentQuantity st req.product_id
  if transaction_type = "IN" then current_quantity + quantity_change
  else if transaction_type = "OUT" then current_quantity - quantity_change
  else quantity_change

/-- `update_stock` (REST, lines 128-195). `txn_id` stands for the freshly
generated `TXN...` uuid; `okStock` / `okTxn` say whether QuestDB accepted
the `stock` / `stock_transactions` INSERT (both INSERTs are issued
unconditionally once validation passes; a rejected INSERT leaves no row).
Returns the HTTP response and the resulting store. -/
def update_stock (st : Store) (req : UpdateRequest) (txn_id : String)
    (okStock okTxn : Bool) : UpdateResp × Store :=
  let product_id := req.product_id
  let quantity_change := req.quantity.getD 0
  let transaction_type := req.type.getD "ADJUSTMENT"
  let location := req.location.getD "Warehouse-A"
  let reason := req.reason.getD "Manual update"
  let current_quantity := currentQuantity st product_id
  let new_quantity :=
    if transaction_type = "IN" then current_quantity + quantity_change
    else if transaction_type = "OUT" then current_quantity - quantity_change
    else quantity_change
  let stRead : Store := { st with log := st.log ++ [Query.readStock product_id] }
  if new_quantity < 0 then
    (UpdateResp.err 400 "Cannot have negative stock", stRead)
  else
    let snap : Snapshot :=
      { product_id := product_id, quantity := new_quantity, location := location }
    let txn : Transaction :=
      { txn_id := txn_id, product_id := product_id, txn_type := transaction_type,
        quantity := quantity_change, quantity_before := current_quantity,
        quantity_after := new_quantity, reason := reason }
    let stDone : Store :=
      { stRead with
        stock := if okStock then stRead.stock ++ [snap] else stRead.stock,
        stock_transactions :=
          if okTxn then stRead.stock_transactions ++ [txn]
          else stRead.stock_transactions,
        log := stRead.log ++ [Query.insertStock snap, Query.insertTxn txn] }
    if okStock && okTxn then
      (UpdateResp.ok txn_id current_quantity new_quantity quantity_change, stDone)
    else
      (UpdateResp.err 500 "Failed to update stock", stDone)

end Rest

namespace Grpc

/-- gRPC status codes used on the stock paths (set via `context.set_code`;
`OK` when no code is set). -/
inductive GStatus where
  | OK
  | INVALID_ARGUMENT
  | NOT_FOUND
  | INTERNAL
deriving Repr, DecidableEq

/-- The `StockResponse` message together with the status code set on the
context. -/
structure StockResponse where
  product_id : String
  current_stock : Int
  message : String
  status : GStatus
deriving Repr, DecidableEq

/-- The `TransactionResponse` message together with the status code set on
the context. -/
structure TransactionResponse where
  transaction_id : String
  message : String
  status : GStatus
deriving Repr, DecidableEq

/-- `GetStock` (gRPC, lines 101-129): selects the latest `stock` row;
returns its quantity, or `current_stock = 0` with message
`"No stock record found"` when no row exists — with status `OK` either
way. -/
def GetStock (st : Store) (product_id : String) : StockResponse × Store :=
  let stRead : Store := { st with log := st.log ++ [Query.readStock product_id] }
  match latestSnapshot st product_id with
  | some row =>
      ({ product_id := product_id, current_stock := row.quantity,
         message := "Stock retrieved", status := GStatus.OK }, stRead)
  | none =>
      ({ product_id := product_id, current_stock := 0,
         message := "No stock record found", status := GStatus.OK }, stRead)

/-- `UpdateStock` (gRPC, lines 131-188): reads the latest quantity, then —
"For simplicity, treat this as setting absolute stock level" — takes
`new_quantity = request.quantity`, rejects a negative value with
`INVALID_ARGUMENT`, and otherwise inserts one `stock` row (no
`stock_transactions` row). `okStock` says whether the INSERT succeeded. -/
def UpdateStock (st : Store) (product_id : String) (quantity : Int)
    (okStock : Bool) : StockResponse × Store :=
  let stRead : Store := { st with log := st.log ++ [Query.readStock product_id] }
  let current_quantity := currentQuantity st product_id
  let new_quantity := quantity
  if new_quantity < 0 then
    ({ product_id := product_id, current_stock := current_quantity,
       message := "Cannot have negative stock",
       status := GStatus.INVALID_ARGUMENT }, stRead)
  else
    let snap : Snapshot :=
      { product_id := product_id, quantity := new_quantity,
        location := "Warehouse-A" }
    let stDone : Store :=
      { stRead with
        stock := if okStock then stRead.stock ++ [snap] else stRead.stock,
        log := stRead.log ++ [Query.insertStock snap] }
    if okStock then
      ({ product_id := product_id, current_stock := new_quantity,
         message := "Stock updated successfully", status := GStatus.OK }, stDone)
    else
      ({ product_id := product_id, current_stock := current_quantity,
         message := "QuestDB error", status := GStatus.INTERNAL }, stDone)

/-- The commit tail of `CreateTransaction` (gRPC, lines 228-259): both
INSERTs are issued; success iff both are accepted. -/
def commitCreate (stRead : Store) (product_id : String) (quantity : Int)
    (transaction_type : String) (txn_id : String) (current_quantity new_quantity : Int)
    (okStock okTxn : Bool) : TransactionResponse × Store :=
  let snap : Snapshot :=
    { product_id := product_id, quantity := new_quantity, location := "Warehouse-A" }
  let txn : Transaction :=
    { txn_id := txn_id, product_id := product_id, txn_type := transaction_type,
      quantity := quantity, quantity_before := current_quantity,
      quantity_after := new_quantity, reason := "gRPC transaction" }
  let stDone : Store :=
    { stRead with
      stock := if okStock then stRead.stock ++ [snap] else stRead.stock,
      stock_transactions :=
        if okTxn then stRead.stock_transactions ++ [txn]
        else stRead.stock_transactions,
      log := stRead.log ++ [Query.insertStock snap, Query.insertTxn txn] }
  if okStock && okTxn then
    ({ transaction_id := txn_id, message := "Transaction completed",
       status := GStatus.OK }, stDone)
  else
    ({ transaction_id := "", message := "Failed to complete transaction",
       status := GStatus.INTERNAL }, stDone)

/-- `CreateTransaction` (gRPC, lines 190-267): reads the latest quantity,
then dispatches on the type string: `IN` adds (with no negativity check),
`OUT` subtracts and rejects a negative result with `INVALID_ARGUMENT`
("Insufficient stock"), and every other type — `ADJUSTMENT` included — is
rejected with `INVALID_ARGUMENT` ("Transaction type must be 'IN' or
'OUT'"). The latest-stock SELECT is issued before the type dispatch. -/
def CreateTransaction (st : Store) (product_id : String) (quantity : Int)
    (transaction_type : String) (txn_id : String) (okStock okTxn : Bool) :
    TransactionResponse × Store :=
  let stRead : Store := { st with log := st.log ++ [Query.readStock product_id] }
  let current_quantity := currentQuantity st product_id
  if transaction_type = "IN" then
    commitCreate stRead product_id quantity transaction_type txn_id
      current_quantity (current_quantity + quantity) okStock okTxn
  else if transaction_type = "OUT" then
    let new_quantity := current_quantity - quantity
    if new_quantity < 0 then
      ({ transaction_id := "", message := "Insufficient stock for OUT transaction",
         status := GStatus.INVALID_ARGUMENT }, stRead)
    else
      commitCreate stRead product_id quantity transaction_type txn_id
        current_quantity new_quantity okStock okTxn
  else
    ({ transaction_id := "", message := "Transaction type must be 'IN' or 'OUT'",
       status := GStatus.INVALID_ARGUMENT }, stRead)

end Grpc

/-- One invocation of any of the three exposed stock-mutating endpoints,
with its nondeterministic environment choices (generated txn id, store
accept/reject of each INSERT). -/
inductive Op where
  | restUpdate (req : Rest.UpdateRequest) (txn_id : String) (okStock okTxn : Bool)
  | grpcUpdate (product_id : String) (quantity : Int) (okStock : Bool)
  | grpcCreate (product_id : String) (quantity : Int)
      (transaction_type txn_id : String) (okStock okTxn : Bool)
deriving Repr

/-- The store after one endpoint invocation. -/
def applyOp (st : Store) : Op → Store
  | Op.restUpdate req tid o1 o2 => (Rest.update_stock st req tid o1 o2).2
  | Op.grpcUpdate pid q o1 => (Grpc.UpdateStock st pid q o1).2
  | Op.grpcCreate pid q t tid o1 o2 => (Grpc.CreateTransaction st pid q t tid o1 o2).2

/-- The store after a sequence of endpoint invocations. -/
def run (st : Store) (ops : List Op) : Store := ops.foldl applyOp st

/-- The signed-delta bookkeeping equation of the spec: `quantity_after`
equals `quantity_before` plus `+quantity` for `IN`, `-quantity` for `OUT`,
and `quantity - quantity_before` for any other recorded type. -/
def signedOk (t : Transaction) : Prop :=
  t.quantity_after = t.quantity_before +
    (if t.txn_type = "IN" then t.quantity
     else if t.txn_type = "OUT" then -t.quantity
     else t.quantity - t.quantity_before)

instance (t : Transaction) : Decidable (signedOk t) := by
  unfold signedOk; infer_instance

namespace Race

/-!
Interleaving model for the concurrency claim. Flask serves requests on
multiple threads and the gRPC server runs a `ThreadPoolExecutor` with 10
workers; neither handler takes any lock, so the three `execute_query`
calls of one REST `update_stock(product, IN, 1)` request can interleave
freely with those of another request for the same product. Each in-flight
call is in one of the phases below, split exactly at its store accesses
(REST lines 140-141 read, line 180 stock INSERT, line 181 transaction
INSERT), carrying the Python locals that live across the accesses.
-/

/-- The progress of one in-flight REST `update_stock(product_id := "P",
type := "IN", quantity := 1)` call, between its `execute_query` calls.
After the read, the thread holds `current_quantity = cur`; `IN` with
quantity 1 gives `new_quantity = cur + 1 ≥ 0`, so the negative-stock check
never fires on this input and both INSERTs follow. -/
inductive CallPhase where
  | toRead
  | toWriteStock (cur : Int)
  | toWriteTxn (cur : Int)
  | done
deriving Repr, DecidableEq

/-- Let one thread of an `update_stock("P", IN, 1)` call perform its next
store access (a no-op once the call is done). The rows written are exactly
those `update_stock` writes for request `⟨"P", some 1, some "IN", none,
none⟩` with txn id `"TXN"` and an accepting store. -/
def stepThread (st : Store) : CallPhase → CallPhase × Store
  | CallPhase.toRead =>
      (CallPhase.toWriteStock (currentQuantity st "P"),
       { st with log := st.log ++ [Query.readStock "P"] })
  | CallPhase.toWriteStock cur =>
      let snap : Snapshot :=
        { product_id := "P", quantity := cur + 1, location := "Warehouse-A" }
      (CallPhase.toWriteTxn cur,
       { st with stock := st.stock ++ [snap],
                 log := st.log ++ [Query.insertStock snap] })
  | CallPhase.toWriteTxn cur =>
      let txn : Transaction :=
        { txn_id := "TXN", product_id := "P", txn_type := "IN", quantity := 1,
          quantity_before := cur, quantity_after := cur + 1,
          reason := "Manual update" }
      (CallPhase.done,
       { st with stock_transactions := st.stock_transactions ++ [txn],
                 log := st.log ++ [Query.insertTxn txn] })
  | CallPhase.done => (CallPhase.done, st)

/-- The store plus the phase of every concurrent call. -/
structure RaceState where
  store : Store
  threads : List CallPhase
deriving Repr, DecidableEq

/-- Schedule thread `i` for its next store access. -/
def schedStep (rs : RaceState) (i : Nat) : RaceState :=
  match rs.threads.get? i with
  | none => rs
  | some ph =>
      let r := stepThread rs.store ph
      { store := r.2, threads := rs.threads.set i r.1 }

/-- Run `n` concurrent `update_stock("P", IN, 1)` calls from the empty
store under the interleaving `sched` (a list of thread indices, each entry
letting that thread perform its next store access). -/
def runSched (n : Nat) (sched : List Nat) : Store :=
  (sched.foldl schedStep ⟨initStore, List.replicate n CallPhase.toRead⟩).store

end Race

/-! ### Helper lemmas -/

lemma currentQuantity_set_products (st : Store) (ps : List String) (p : String) :
    currentQuantity { st with products := ps } p = currentQuantity st p := rfl

lemma txns_applyOp (st : Store) (op : Op) :
    ∀ t ∈ (applyOp st op).stock_transactions,
      t ∈ st.stock_transactions ∨ signedOk t := by
  intro t ht
  cases op with
  | restUpdate req tid o1 o2 =>
      simp only [applyOp, Rest.update_stock] at ht
      repeat' split at ht
      all_goals simp only [List.mem_append, List.mem_singleton] at ht
      all_goals
        first
          | exact Or.inl ht
          | rcases ht with h | h
            · exact Or.inl h
            · subst h
              refine Or.inr ?_
              unfold signedOk
              dsimp only
              split_ifs <;> ring
  | grpcUpdate pid q o1 =>
      simp only [applyOp, Grpc.UpdateStock] at ht
      repeat' split at ht
      all_goals exact Or.inl ht
  | grpcCreate pid q tt tid o1 o2 =>
      simp only [applyOp, Grpc.CreateTransaction, Grpc.commitCreate] at ht
      repeat' split at ht
      all_goals simp only [List.mem_append, List.mem_singleton] at ht
      all_goals
        first
          | exact Or.inl ht
          | rcases ht with h | h
            · exact Or.inl h
            · subst h
              refine Or.inr ?_
              unfold signedOk
              dsimp only
              split_ifs <;> ring

lemma txns_run (ops : List Op) :
    ∀ st : Store, (∀ t ∈ st.stock_transactions, signedOk t) →
      ∀ t ∈ (run st ops).stock_transactions, signedOk t := by
  induction ops with
  | nil => intro st h; simpa [run] using h
  | cons op ops ih =>
      intro st h t ht
      refine ih (applyOp st op)
        (fun u hu => (txns_applyOp st op u hu).elim (h u) id) t ?_
      simpa [run, List.foldl] using ht

/-! ### Claims -/

/-- C1: the stock-arithmetic claim, amended. The REST `update_stock` handler
does compute the new stock as `previousStock + quantity` for IN,
`previousStock - quantity` for OUT and the absolute `quantity` for
ADJUSTMENT (`previousStock` being the latest snapshot's quantity, or 0 with
no snapshot), and every transaction row committed by any sequence of the
exposed operations satisfies
`quantity_after = quantity_before + signedQuantity` (signed `+quantity` for
IN, `-quantity` for OUT, `quantity - quantity_before` otherwise). However,
contrary to the claim, gRPC `CreateTransaction` does not implement
ADJUSTMENT: it rejects it (like every type other than IN and OUT) with
`INVALID_ARGUMENT` and writes no row. -/
theorem C1_signed_ledger :
    (∀ ops : List Op, ∀ t ∈ (run initStore ops).stock_transactions, signedOk t) ∧
    (∀ (st : Store) (req : Rest.UpdateRequest) (tid : String),
      0 ≤ Rest.newQuantity st req →
        (Rest.update_stock st req tid true true).1
          = Rest.UpdateResp.ok tid (currentQuantity st req.product_id)
              (Rest.newQuantity st req) (req.quantity.getD 0)) ∧
    (∀ (st : Store) (pid : String) (q : Int) (tid : String) (o1 o2 : Bool),
      (Grpc.CreateTransaction st pid q "ADJUSTMENT" tid o1 o2).1.status
          = Grpc.GStatus.INVALID_ARGUMENT ∧
      (Grpc.CreateTransaction st pid q "ADJUSTMENT" tid o1 o2).2.stock = st.stock ∧
      (Grpc.CreateTransaction st pid q "ADJUSTMENT" tid o1 o2).2.stock_transactions
          = st.stock_transactions) := by
  refine ⟨fun ops => txns_run ops initStore (by simp [initStore]), ?_, ?_⟩
  · intro st req tid h
    simp only [Rest.newQuantity] at h
    simp only [Rest.update_stock]
    rw [if_neg (not_lt.mpr h)]
    simp [Rest.newQuantity]
  · intro st pid q tid o1 o2
    refine ⟨?_, ?_, ?_⟩ <;> simp [Grpc.CreateTransaction]

/-- Witness for `C1_signed_ledger`: the IN transaction committed by
`update_stock("P", IN, 3)` on the empty store satisfies the signed
equation, and the REST response reports the computed stock 0 + 3. -/
theorem C1_signed_ledger_witness :
    signedOk { txn_id := "T", product_id := "P", txn_type := "IN", quantity := 3,
               quantity_before := 0, quantity_after := 3,
               reason := "Manual update" } ∧
    (Rest.update_stock initStore ⟨"P", some 3, some "IN", none, none⟩ "T" true true).1
      = Rest.UpdateResp.ok "T" 0 3 3 := by
  constructor
  · exact C1_signed_ledger.1
      [Op.restUpdate ⟨"P", some 3, some "IN", none, none⟩ "T" true true] _ (by decide)
  · exact (C1_signed_ledger.2.1 initStore ⟨"P", some 3, some "IN", none, none⟩ "T"
      (by decide)).trans (by decide)

/-- C1 counterexample: gRPC `CreateTransaction` with type ADJUSTMENT does
not set the stock to the absolute quantity: on the empty store with
quantity 5 it returns `INVALID_ARGUMENT` and leaves the stock table
untouched — the latest stock reads 0, not the 5 the claim requires. -/
theorem C1_counterexample :
    (Grpc.CreateTransaction initStore "P" 5 "ADJUSTMENT" "T" true true).1.status
        = Grpc.GStatus.INVALID_ARGUMENT ∧
    currentQuantity (run initStore [Op.grpcCreate "P" 5 "ADJUSTMENT" "T" true true]) "P"
        = 0 ∧ (0 : Int) ≠ 5 := by
  decide

/-- C2 is refuted by the code: the latest-snapshot quantity can go negative.
gRPC `CreateTransaction` checks `new_quantity < 0` only on its OUT branch,
so `CreateTransaction(product_id := "P1", transaction_type := "IN",
quantity := -5)` on the empty store returns `OK` and commits a snapshot
with quantity `-5` — a reachable state whose latest snapshot is negative,
against the code's own negative-stock guards on the three other paths. -/
theorem C2_negative_snapshot_reachable :
    currentQuantity (run initStore [Op.grpcCreate "P1" (-5) "IN" "TXN1" true true]) "P1"
        = -5 ∧
    (Grpc.CreateTransaction initStore "P1" (-5) "IN" "TXN1" true true).1.status
        = Grpc.GStatus.OK := by decide

/-- C4 counterexample: with `N = 2` concurrent `update_stock("P", IN, 1)`
calls from stock 0, the interleaving in which both calls read the latest
snapshot before either writes (schedule `[0,1,0,0,1,1]` over the calls'
store accesses — nothing in the code prevents it, as no lock is taken)
ends with final stock 1, not `N = 2`. -/
theorem C4_counterexample :
    currentQuantity (Race.runSched 2 [0, 1, 0, 0, 1, 1]) "P" = 1 ∧ (1 : Int) ≠ 2 := by
  decide

/-- C4, amended: the read-compute-validate-commit cycle of `update_stock` is
not a critical section — no lock is taken, so the store accesses of
concurrent calls interleave freely. The fully serialized schedule of two
`update_stock("P", IN, 1)` calls coincides with two sequential REST calls
and yields stock 2, while the schedule in which both calls read before
either writes yields stock 1: a lost update. -/
theorem C4_lost_update :
    Race.runSched 2 [0, 0, 0, 1, 1, 1]
        = run initStore
            [Op.restUpdate ⟨"P", some 1, some "IN", none, none⟩ "TXN" true true,
             Op.restUpdate ⟨"P", some 1, some "IN", none, none⟩ "TXN" true true] ∧
    currentQuantity (Race.runSched 2 [0, 0, 0, 1, 1, 1]) "P" = 2 ∧
    currentQuantity (Race.runSched 2 [0, 1, 0, 0, 1, 1]) "P" = 1 := by
  decide

/-- C3 counterexample: (i) a successful gRPC `UpdateStock` writes one
`stock` row and zero `stock_transactions` rows, and (ii) when the `stock`
INSERT succeeds but the `stock_transactions` INSERT fails, REST
`update_stock` reports failure (500) yet the snapshot row remains — not
"exactly one snapshot and one transaction on success, zero rows on
failure". -/
theorem C3_counterexample :
    ((Grpc.UpdateStock initStore "P" 50 true).1.status = Grpc.GStatus.OK ∧
      (Grpc.UpdateStock initStore "P" 50 true).2.stock_transactions = [] ∧
      (Grpc.UpdateStock initStore "P" 50 true).2.stock.length = 1) ∧
    ((Rest.update_stock initStore ⟨"P", some 5, some "IN", none, none⟩ "T" true false).1
        = Rest.UpdateResp.err 500 "Failed to update stock" ∧
      (Rest.update_stock initStore ⟨"P", some 5, some "IN", none, none⟩ "T" true false).2.stock
        = [{ product_id := "P", quantity := 5, location := "Warehouse-A" }] ∧
      (Rest.update_stock initStore ⟨"P", some 5, some "IN", none, none⟩
          "T" true false).2.stock_transactions = []) := by
  decide

/-- C3, amended: on full success REST `update_stock` and gRPC
`CreateTransaction` (on its IN branch always, on its OUT branch when the
computed stock is non-negative) append exactly one snapshot and one
transaction row, and a validation failure writes nothing; but gRPC
`UpdateStock` on success appends one snapshot and no transaction row, and
the two INSERTs are not atomic in either adapter: when the snapshot
INSERT is accepted and the transaction INSERT fails, the call reports
failure (REST 500 / gRPC `INTERNAL`) while the snapshot row stays
committed. -/
theorem C3_row_effects :
    (∀ (st : Store) (req : Rest.UpdateRequest) (tid : String),
      0 ≤ Rest.newQuantity st req →
        ∃ s t, (Rest.update_stock st req tid true true).2.stock = st.stock ++ [s] ∧
          (Rest.update_stock st req tid true true).2.stock_transactions
            = st.stock_transactions ++ [t]) ∧
    (∀ (st : Store) (req : Rest.UpdateRequest) (tid : String) (o1 o2 : Bool),
      Rest.newQuantity st req < 0 →
        (Rest.update_stock st req tid o1 o2).2.stock = st.stock ∧
        (Rest.update_stock st req tid o1 o2).2.stock_transactions
          = st.stock_transactions) ∧
    (∀ (st : Store) (pid : String) (q : Int),
      0 ≤ q →
        (Grpc.UpdateStock st pid q true).1.status = Grpc.GStatus.OK ∧
        (Grpc.UpdateStock st pid q true).2.stock
          = st.stock ++ [{ product_id := pid, quantity := q,
                           location := "Warehouse-A" }] ∧
        (Grpc.UpdateStock st pid q true).2.stock_transactions
          = st.stock_transactions) ∧
    (∀ (st : Store) (req : Rest.UpdateRequest) (tid : String),
      0 ≤ Rest.newQuantity st req →
        (Rest.update_stock st req tid true false).1
            = Rest.UpdateResp.err 500 "Failed to update stock" ∧
        ∃ s, (Rest.update_stock st req tid true false).2.stock = st.stock ++ [s] ∧
          (Rest.update_stock st req tid true false).2.stock_transactions
            = st.stock_transactions) ∧
    (∀ (st : Store) (pid : String) (q : Int) (tid : String),
      (Grpc.CreateTransaction st pid q "IN" tid true true).1.status
          = Grpc.GStatus.OK ∧
      (Grpc.CreateTransaction st pid q "IN" tid true true).2.stock
          = st.stock ++ [{ product_id := pid,
                           quantity := currentQuantity st pid + q,
                           location := "Warehouse-A" }] ∧
      (Grpc.CreateTransaction st pid q "IN" tid true true).2.stock_transactions
          = st.stock_transactions
            ++ [{ txn_id := tid, product_id := pid, txn_type := "IN",
                  quantity := q, quantity_before := currentQuantity st pid,
                  quantity_after := currentQuantity st pid + q,
                  reason := "gRPC transaction" }]) ∧
    (∀ (st : Store) (pid : String) (q : Int) (tid : String),
      0 ≤ currentQuantity st pid - q →
        (Grpc.CreateTransaction st pid q "OUT" tid true true).1.status
            = Grpc.GStatus.OK ∧
        (Grpc.CreateTransaction st pid q "OUT" tid true true).2.stock
            = st.stock ++ [{ product_id := pid,
                             quantity := currentQuantity st pid - q,
                             location := "Warehouse-A" }] ∧
        (Grpc.CreateTransaction st pid q "OUT" tid true true).2.stock_transactions
            = st.stock_transactions
              ++ [{ txn_id := tid, product_id := pid, txn_type := "OUT",
                    quantity := q, quantity_before := currentQuantity st pid,
                    quantity_after := currentQuantity st pid - q,
                    reason := "gRPC transaction" }]) ∧
    (∀ (st : Store) (pid : String) (q : Int) (tid : String),
      (Grpc.CreateTransaction st pid q "IN" tid true false).1.status
          = Grpc.GStatus.INTERNAL ∧
      (Grpc.CreateTransaction st pid q "IN" tid true false).2.stock
          = st.stock ++ [{ product_id := pid,
                           quantity := currentQuantity st pid + q,
                           location := "Warehouse-A" }] ∧
      (Grpc.CreateTransaction st pid q "IN" tid true false).2.stock_transactions
          = st.stock_transactions) := by
  refine ⟨?_, ?_, ?_, ?_, ?_, ?_, ?_⟩
  · intro st req tid h
    simp only [Rest.newQuantity] at h
    simp only [Rest.update_stock]
    rw [if_neg (not_lt.mpr h)]
    exact ⟨_, _, rfl, rfl⟩
  · intro st req tid o1 o2 h
    simp only [Rest.newQuantity] at h
    simp only [Rest.update_stock]
    rw [if_pos h]
    exact ⟨rfl, rfl⟩
  · intro st pid q h
    simp only [Grpc.UpdateStock]
    rw [if_neg (not_lt.mpr h)]
    exact ⟨rfl, rfl, rfl⟩
  · intro st req tid h
    simp only [Rest.newQuantity] at h
    simp only [Rest.update_stock]
    rw [if_neg (not_lt.mpr h)]
    exact ⟨rfl, _, rfl, rfl⟩
  · intro st pid q tid
    simp only [Grpc.CreateTransaction, Grpc.commitCreate, reduceIte]
    exact ⟨rfl, rfl, rfl⟩
  · intro st pid q tid h
    simp only [Grpc.CreateTransaction, Grpc.commitCreate]
    rw [if_pos trivial, if_neg (not_lt.mpr h)]
    exact ⟨rfl, rfl, rfl⟩
  · intro st pid q tid
    simp only [Grpc.CreateTransaction, Grpc.commitCreate, reduceIte]
    exact ⟨rfl, rfl, rfl⟩

/-- Witness for `C3_row_effects` at `update_stock("P", IN, 5)` and
`UpdateStock("P", 50)` on the empty store, `update_stock("P", IN, 5)` with
a failing transaction INSERT, and `CreateTransaction("P", OUT, 4)` on a
store holding stock 10. -/
theorem C3_row_effects_witness :
    (∃ s t,
      (Rest.update_stock initStore ⟨"P", some 5, some "IN", none, none⟩
          "T" true true).2.stock = initStore.stock ++ [s] ∧
      (Rest.update_stock initStore ⟨"P", some 5, some "IN", none, none⟩
          "T" true true).2.stock_transactions
        = initStore.stock_transactions ++ [t]) ∧
    (Grpc.UpdateStock initStore "P" 50 true).1.status = Grpc.GStatus.OK ∧
    (Rest.update_stock initStore ⟨"P", some 5, some "IN", none, none⟩ "T" true false).1
        = Rest.UpdateResp.err 500 "Failed to update stock" ∧
    (Grpc.CreateTransaction ⟨[], [⟨"P", 10, "Warehouse-A"⟩], [], []⟩
        "P" 4 "OUT" "T2" true true).1.status = Grpc.GStatus.OK := by
  refine ⟨?_, ?_, ?_, ?_⟩
  · exact C3_row_effects.1 initStore ⟨"P", some 5, some "IN", none, none⟩ "T" (by decide)
  · exact (C3_row_effects.2.2.1 initStore "P" 50 (by decide)).1
  · exact (C3_row_effects.2.2.2.1 initStore ⟨"P", some 5, some "IN", none, none⟩
      "T" (by decide)).1
  · exact (C3_row_effects.2.2.2.2.2.1 ⟨[], [⟨"P", 10, "Warehouse-A"⟩], [], []⟩
      "P" 4 "T2" (by decide)).1

/-- C5 counterexample: a call whose computed new stock is negative does not
always abort — gRPC `CreateTransaction(IN, -5)` returns `OK` and commits —
and when the code does abort it uses `INVALID_ARGUMENT` (gRPC) or HTTP 400
with "Cannot have negative stock" (REST), never a `FailedPrecondition`
kind distinct from invalid-argument. -/
theorem C5_counterexample :
    (currentQuantity initStore "P" + (-5) < 0 ∧
      (Grpc.CreateTransaction initStore "P" (-5) "IN" "T" true true).1.status
        = Grpc.GStatus.OK) ∧
    (Grpc.CreateTransaction initStore "P" 5 "OUT" "T2" true true).1.status
        = Grpc.GStatus.INVALID_ARGUMENT ∧
    (Rest.update_stock initStore ⟨"P", some 5, some "OUT", none, none⟩ "T3" true true).1
        = Rest.UpdateResp.err 400 "Cannot have negative stock" := by
  decide

/-- C5, amended: REST `update_stock` aborts every negative computed stock
with HTTP 400 "Cannot have negative stock" and writes nothing; gRPC
`CreateTransaction` aborts only OUT with `INVALID_ARGUMENT`
("Insufficient stock for OUT transaction") writing nothing, while IN never
aborts regardless of the computed stock's sign; gRPC `UpdateStock` rejects
a negative requested level with `INVALID_ARGUMENT` writing nothing. The
error kind used is the same `INVALID_ARGUMENT` / 400 as for malformed
arguments, not a distinct `FailedPrecondition`. -/
theorem C5_negative_stock_handling :
    (∀ (st : Store) (req : Rest.UpdateRequest) (tid : String) (o1 o2 : Bool),
      Rest.newQuantity st req < 0 →
        (Rest.update_stock st req tid o1 o2).1
            = Rest.UpdateResp.err 400 "Cannot have negative stock" ∧
        (Rest.update_stock st req tid o1 o2).2.stock = st.stock ∧
        (Rest.update_stock st req tid o1 o2).2.stock_transactions
          = st.stock_transactions) ∧
    (∀ (st : Store) (pid : String) (q : Int) (tid : String) (o1 o2 : Bool),
      currentQuantity st pid - q < 0 →
        (Grpc.CreateTransaction st pid q "OUT" tid o1 o2).1
            = { transaction_id := "",
                message := "Insufficient stock for OUT transaction",
                status := Grpc.GStatus.INVALID_ARGUMENT } ∧
        (Grpc.CreateTransaction st pid q "OUT" tid o1 o2).2.stock = st.stock ∧
        (Grpc.CreateTransaction st pid q "OUT" tid o1 o2).2.stock_transactions
          = st.stock_transactions) ∧
    (∀ (st : Store) (pid : String) (q : Int) (o : Bool),
      q < 0 →
        (Grpc.UpdateStock st pid q o).1.status = Grpc.GStatus.INVALID_ARGUMENT ∧
        (Grpc.UpdateStock st pid q o).2.stock = st.stock) ∧
    (∀ (st : Store) (pid : String) (q : Int) (tid : String),
      (Grpc.CreateTransaction st pid q "IN" tid true true).1.status
        = Grpc.GStatus.OK) := by
  refine ⟨?_, ?_, ?_, ?_⟩
  · intro st req tid o1 o2 h
    simp only [Rest.newQuantity] at h
    simp only [Rest.update_stock]
    rw [if_pos h]
    exact ⟨rfl, rfl, rfl⟩
  · intro st pid q tid o1 o2 h
    simp only [Grpc.CreateTransaction]
    rw [if_pos trivial, if_pos h]
    exact ⟨rfl, rfl, rfl⟩
  · intro st pid q o h
    simp only [Grpc.UpdateStock]
    rw [if_pos h]
    exact ⟨rfl, rfl⟩
  · intro st pid q tid
    simp [Grpc.CreateTransaction, Grpc.commitCreate]

/-- Witness for `C5_negative_stock_handling` at `update_stock("P", OUT, 5)`
and `CreateTransaction("P", OUT, 5)` on the empty store (computed stock
`0 - 5 < 0`). -/
theorem C5_negative_stock_handling_witness :
    (Rest.update_stock initStore ⟨"P", some 5, some "OUT", none, none⟩ "T" true true).1
        = Rest.UpdateResp.err 400 "Cannot have negative stock" ∧
    (Grpc.CreateTransaction initStore "P" 5 "OUT" "T" true true).2.stock = [] ∧
    (Grpc.UpdateStock initStore "P" (-1) true).1.status
        = Grpc.GStatus.INVALID_ARGUMENT := by
  refine ⟨?_, ?_, ?_⟩
  · exact (C5_negative_stock_handling.1 initStore
      ⟨"P", some 5, some "OUT", none, none⟩ "T" true true (by decide)).1
  · exact (C5_negative_stock_handling.2.1 initStore "P" 5 "T" true true (by decide)).2.1
  · exact (C5_negative_stock_handling.2.2.1 initStore "P" (-1) true (by decide)).1

/-- C6 counterexample: the REST adapter performs no type or sign
validation. `update_stock("P", type := "BOGUS", quantity := 7)` succeeds
(HTTP 200, stock set to 7) instead of failing with InvalidArgument, and a
negative quantity is accepted whenever the computed stock stays
non-negative: after setting stock 10, `update_stock("P", IN, -3)` succeeds
with new stock 7. -/
theorem C6_counterexample :
    (Rest.update_stock initStore ⟨"P", some 7, some "BOGUS", none, none⟩ "T" true true).1
        = Rest.UpdateResp.ok "T" 0 7 7 ∧
    (Rest.update_stock
        (run initStore
          [Op.restUpdate ⟨"P", some 10, some "ADJUSTMENT", none, none⟩ "T0" true true])
        ⟨"P", some (-3), some "IN", none, none⟩ "T1" true true).1
        = Rest.UpdateResp.ok "T1" 10 7 (-3) := by
  decide

/-- C6, amended: REST `update_stock` treats every type outside
`{IN, OUT}` as an absolute set (the computed stock is the raw quantity)
and never rejects a type or a negative quantity as such — a negative
quantity on IN succeeds whenever the computed stock is non-negative. gRPC
`CreateTransaction` does reject types other than IN/OUT with
`INVALID_ARGUMENT` and writes no row, but only after issuing the
latest-stock query, not before any store access; and it accepts a
negative quantity on IN, returning `OK` and committing the transaction
instead of failing with `INVALID_ARGUMENT`. -/
theorem C6_no_validation :
    (∀ (st : Store) (req : Rest.UpdateRequest) (tt : String),
      req.type = some tt → tt ≠ "IN" → tt ≠ "OUT" →
        Rest.newQuantity st req = req.quantity.getD 0) ∧
    (∀ (st : Store) (pid : String) (q : Int) (tt tid : String) (o1 o2 : Bool),
      tt ≠ "IN" → tt ≠ "OUT" →
        (Grpc.CreateTransaction st pid q tt tid o1 o2).1
            = { transaction_id := "",
                message := "Transaction type must be 'IN' or 'OUT'",
                status := Grpc.GStatus.INVALID_ARGUMENT } ∧
        (Grpc.CreateTransaction st pid q tt tid o1 o2).2.stock = st.stock ∧
        (Grpc.CreateTransaction st pid q tt tid o1 o2).2.stock_transactions
          = st.stock_transactions ∧
        (Grpc.CreateTransaction st pid q tt tid o1 o2).2.log
          = st.log ++ [Query.readStock pid]) ∧
    (∀ (st : Store) (pid : String) (q : Int) (tid : String),
      q < 0 → 0 ≤ currentQuantity st pid + q →
        (Rest.update_stock st ⟨pid, some q, some "IN", none, none⟩ tid true true).1
          = Rest.UpdateResp.ok tid (currentQuantity st pid)
              (currentQuantity st pid + q) q) ∧
    (∀ (st : Store) (pid : String) (q : Int) (tid : String),
      q < 0 →
        (Grpc.CreateTransaction st pid q "IN" tid true true).1.status
            = Grpc.GStatus.OK ∧
        (Grpc.CreateTransaction st pid q "IN" tid true true).2.stock_transactions
            = st.stock_transactions
              ++ [{ txn_id := tid, product_id := pid, txn_type := "IN",
                    quantity := q, quantity_before := currentQuantity st pid,
                    quantity_after := currentQuantity st pid + q,
                    reason := "gRPC transaction" }]) := by
  refine ⟨?_, ?_, ?_, ?_⟩
  · intro st req tt hty h1 h2
    simp only [Rest.newQuantity, hty, Option.getD_some]
    rw [if_neg h1, if_neg h2]
  · intro st pid q tt tid o1 o2 h1 h2
    simp only [Grpc.CreateTransaction]
    rw [if_neg h1, if_neg h2]
    exact ⟨rfl, rfl, rfl, rfl⟩
  · intro st pid q tid h1 h2
    simp only [Rest.update_stock, Option.getD_some]
    simp only [reduceIte]
    rw [if_neg (not_lt.mpr h2)]
    rfl
  · intro st pid q tid h1
    simp only [Grpc.CreateTransaction, Grpc.commitCreate, reduceIte]
    exact ⟨rfl, rfl⟩

/-- Witness for `C6_no_validation` at type `"BOGUS"`, at
`update_stock("P", IN, -3)` with current stock 10, and at
`CreateTransaction("P", IN, -3)` on the empty store. -/
theorem C6_no_validation_witness :
    Rest.newQuantity initStore ⟨"P", some 7, some "BOGUS", none, none⟩ = 7 ∧
    (Grpc.CreateTransaction initStore "P" 7 "BOGUS" "T" true true).2.stock = [] ∧
    (Rest.update_stock ⟨[], [⟨"P", 10, "Warehouse-A"⟩], [], []⟩
        ⟨"P", some (-3), some "IN", none, none⟩ "T1" true true).1
      = Rest.UpdateResp.ok "T1" 10 7 (-3) ∧
    (Grpc.CreateTransaction initStore "P" (-3) "IN" "T2" true true).1.status
      = Grpc.GStatus.OK := by
  refine ⟨?_, ?_, ?_, ?_⟩
  · exact C6_no_validation.1 initStore ⟨"P", some 7, some "BOGUS", none, none⟩
      "BOGUS" rfl (by decide) (by decide)
  · exact (C6_no_validation.2.1 initStore "P" 7 "BOGUS" "T" true true
      (by decide) (by decide)).2.1
  · exact (C6_no_validation.2.2.1 ⟨[], [⟨"P", 10, "Warehouse-A"⟩], [], []⟩ "P" (-3) "T1"
      (by decide) (by decide)).trans (by decide)
  · exact (C6_no_validation.2.2.2 initStore "P" (-3) "T2" (by decide)).1

/-- C7 counterexample: no existence check happens anywhere on the stock
paths. On the empty store (whose `products` table is empty, so `"GHOST"`
references no product), `update_stock("GHOST", IN, 5)` succeeds with HTTP
200 — not NotFound — and commits a snapshot row for the nonexistent
product. -/
theorem C7_counterexample :
    "GHOST" ∉ initStore.products ∧
    (Rest.update_stock initStore ⟨"GHOST", some 5, some "IN", none, none⟩ "T" true true).1
        = Rest.UpdateResp.ok "T" 0 5 5 ∧
    (Rest.update_stock initStore ⟨"GHOST", some 5, some "IN", none, none⟩
        "T" true true).2.stock
        = [{ product_id := "GHOST", quantity := 5, location := "Warehouse-A" }] := by
  decide

/-- C7, amended: none of the three stock-mutating handlers consults the
`products` table at all — their responses are invariant under arbitrary
changes to it and they never write it — so a `productId` that references
no existing product is processed exactly like an existing one: the update
succeeds (when its computed stock is non-negative) and snapshot and
transaction rows are written for the nonexistent product; no NotFound is
produced. -/
theorem C7_no_existence_check :
    (∀ (st : Store) (ps : List String) (req : Rest.UpdateRequest) (tid : String)
        (o1 o2 : Bool),
      (Rest.update_stock { st with products := ps } req tid o1 o2).1
          = (Rest.update_stock st req tid o1 o2).1 ∧
      (Rest.update_stock st req tid o1 o2).2.products = st.products) ∧
    (∀ (st : Store) (ps : List String) (pid : String) (q : Int) (o : Bool),
      (Grpc.UpdateStock { st with products := ps } pid q o).1
          = (Grpc.UpdateStock st pid q o).1) ∧
    (∀ (st : Store) (ps : List String) (pid : String) (q : Int) (tt tid : String)
        (o1 o2 : Bool),
      (Grpc.CreateTransaction { st with products := ps } pid q tt tid o1 o2).1
          = (Grpc.CreateTransaction st pid q tt tid o1 o2).1) ∧
    (∀ (st : Store) (req : Rest.UpdateRequest) (tid : String),
      req.product_id ∉ st.products → 0 ≤ Rest.newQuantity st req →
        ∃ s t, (Rest.update_stock st req tid true true).2.stock = st.stock ++ [s] ∧
          (Rest.update_stock st req tid true true).2.stock_transactions
            = st.stock_transactions ++ [t] ∧
          (Rest.update_stock st req tid true true).1
            = Rest.UpdateResp.ok tid (currentQuantity st req.product_id)
                (Rest.newQuantity st req) (req.quantity.getD 0)) := by
  refine ⟨?_, ?_, ?_, ?_⟩
  · intro st ps req tid o1 o2
    constructor
    · simp only [Rest.update_stock, currentQuantity_set_products]
      split_ifs <;> rfl
    · simp only [Rest.update_stock]
      split_ifs <;> rfl
  · intro st ps pid q o
    simp only [Grpc.UpdateStock, currentQuantity_set_products]
    split_ifs <;> rfl
  · intro st ps pid q tt tid o1 o2
    simp only [Grpc.CreateTransaction, Grpc.commitCreate, currentQuantity_set_products]
    split_ifs <;> rfl
  · intro st req tid hmem h
    simp only [Rest.newQuantity] at h
    simp only [Rest.update_stock]
    rw [if_neg (not_lt.mpr h)]
    refine ⟨_, _, rfl, rfl, ?_⟩
    simp [Rest.newQuantity]

/-- Witness for `C7_no_existence_check`: the REST handler's response to
`update_stock("GHOST", IN, 5)` is the same whether the catalog lists
`"GHOST"` or is empty, and on the empty store (where `"GHOST"` is not a
product) the call commits one snapshot and one transaction row. -/
theorem C7_no_existence_check_witness :
    (Rest.update_stock { initStore with products := ["GHOST"] }
        ⟨"GHOST", some 5, some "IN", none, none⟩ "T" true true).1
      = (Rest.update_stock initStore ⟨"GHOST", some 5, some "IN", none, none⟩
          "T" true true).1 ∧
    (∃ s t,
      (Rest.update_stock initStore ⟨"GHOST", some 5, some "IN", none, none⟩
          "T" true true).2.stock = initStore.stock ++ [s] ∧
      (Rest.update_stock initStore ⟨"GHOST", some 5, some "IN", none, none⟩
          "T" true true).2.stock_transactions
        = initStore.stock_transactions ++ [t] ∧
      (Rest.update_stock initStore ⟨"GHOST", some 5, some "IN", none, none⟩
          "T" true true).1
        = Rest.UpdateResp.ok "T" (currentQuantity initStore "GHOST")
            (Rest.newQuantity initStore ⟨"GHOST", some 5, some "IN", none, none⟩) 5) := by
  constructor
  · exact (C7_no_existence_check.1 initStore ["GHOST"]
      ⟨"GHOST", some 5, some "IN", none, none⟩ "T" true true).1
  · exact C7_no_existence_check.2.2.2 initStore
      ⟨"GHOST", some 5, some "IN", none, none⟩ "T" (by decide) (by decide)

/-- C8 counterexample: the same logical request (`productId = "P"`,
`type = ADJUSTMENT`, `quantity = 50`) on the empty store succeeds through
the REST adapter (stock set to 50, rows written) but is rejected by gRPC
`CreateTransaction` with `INVALID_ARGUMENT` and no rows; gRPC
`UpdateStock` meanwhile records no transaction row at all. The adapters
are distinguishable from the ledger's point of view. -/
theorem C8_counterexample :
    (Rest.update_stock initStore ⟨"P", some 50, some "ADJUSTMENT", none, none⟩
        "T" true true).1 = Rest.UpdateResp.ok "T" 0 50 50 ∧
    (Grpc.CreateTransaction initStore "P" 50 "ADJUSTMENT" "T" true true).1.status
        = Grpc.GStatus.INVALID_ARGUMENT ∧
    (Grpc.CreateTransaction initStore "P" 50 "ADJUSTMENT" "T" true true).2.stock = [] ∧
    (Grpc.UpdateStock initStore "P" 50 true).2.stock_transactions = [] := by
  decide

/-- C8, amended: the adapters agree only on the IN/OUT fragment: for
`type ∈ {IN, OUT}`, a non-negative quantity and a non-negative current
stock, REST `update_stock` (with the reason field matching the hardcoded
gRPC one) and gRPC `CreateTransaction` produce identical resulting stores
— same snapshot and transaction rows — and succeed or fail together.
Outside that fragment they diverge (see the counterexample). -/
theorem C8_adapters_agree_in_out :
    ∀ (st : Store) (pid : String) (q : Int) (tt tid : String) (o1 o2 : Bool),
      (tt = "IN" ∨ tt = "OUT") → 0 ≤ q → 0 ≤ currentQuantity st pid →
        (Rest.update_stock st ⟨pid, some q, some tt, none, some "gRPC transaction"⟩
            tid o1 o2).2
          = (Grpc.CreateTransaction st pid q tt tid o1 o2).2 ∧
        ((Rest.update_stock st ⟨pid, some q, some tt, none, some "gRPC transaction"⟩
            tid o1 o2).1
            = Rest.UpdateResp.ok tid (currentQuantity st pid)
                (Rest.newQuantity st
                  ⟨pid, some q, some tt, none, some "gRPC transaction"⟩) q
          ↔ (Grpc.CreateTransaction st pid q tt tid o1 o2).1.status
              = Grpc.GStatus.OK) := by
  intro st pid q tt tid o1 o2 htt hq hcur
  rcases htt with h | h <;> subst h
  · have hgIN : ¬ currentQuantity st pid + q < 0 := by omega
    simp only [Rest.update_stock, Grpc.CreateTransaction, Grpc.commitCreate,
      Rest.newQuantity, Option.getD_some, reduceIte]
    rw [if_neg hgIN]
    cases o1 <;> cases o2 <;> exact ⟨rfl, by simp⟩
  · simp only [Rest.update_stock, Grpc.CreateTransaction, Grpc.commitCreate,
      Rest.newQuantity, Option.getD_some, reduceIte]
    rw [if_neg (by decide : ¬("OUT" : String) = "IN")]
    by_cases hneg : currentQuantity st pid - q < 0
    · rw [if_pos hneg, if_pos hneg]
      exact ⟨rfl, by simp⟩
    · rw [if_neg hneg, if_neg hneg]
      cases o1 <;> cases o2 <;> exact ⟨rfl, by simp⟩

/-- Witness for `C8_adapters_agree_in_out` at `("P", IN, 3)` on the empty
store. -/
theorem C8_adapters_agree_in_out_witness :
    (Rest.update_stock initStore ⟨"P", some 3, some "IN", none, some "gRPC transaction"⟩
        "T" true true).2
      = (Grpc.CreateTransaction initStore "P" 3 "IN" "T" true true).2 := by
  exact (C8_adapters_agree_in_out initStore "P" 3 "IN" "T" true true
    (Or.inl rfl) (by decide) (by decide)).1

/-- C9 counterexample: a product with no stock record is not a successful
response in both adapters: REST `get_stock` answers HTTP 404 (an error
with `"quantity": 0` in the body) while gRPC `GetStock` answers `OK` with
stock 0. -/
theorem C9_counterexample :
    (Rest.get_stock initStore "P").1 = { status := 404, quantity := 0 } ∧
    (Grpc.GetStock initStore "P").1.status = Grpc.GStatus.OK := by
  decide

/-- C9, amended: both read paths return the latest snapshot's quantity when
one exists (REST with 200, gRPC with `OK`); with no snapshot gRPC
`GetStock` returns a successful `OK` response with 0 and "No stock record
found", but REST `get_stock` returns HTTP 404 ("Stock not found") — an
error, not a success. Neither write path is touched: reads leave the
tables unchanged. -/
theorem C9_get_current_stock :
    (∀ (st : Store) (pid : String) (row : Snapshot),
      latestSnapshot st pid = some row →
        (Grpc.GetStock st pid).1
            = { product_id := pid, current_stock := row.quantity,
                message := "Stock retrieved", status := Grpc.GStatus.OK } ∧
        (Rest.get_stock st pid).1 = { status := 200, quantity := row.quantity }) ∧
    (∀ (st : Store) (pid : String),
      latestSnapshot st pid = none →
        (Grpc.GetStock st pid).1
            = { product_id := pid, current_stock := 0,
                message := "No stock record found", status := Grpc.GStatus.OK } ∧
        (Rest.get_stock st pid).1 = { status := 404, quantity := 0 }) ∧
    (∀ (st : Store) (pid : String),
      (Grpc.GetStock st pid).2.stock = st.stock ∧
      (Grpc.GetStock st pid).2.stock_transactions = st.stock_transactions ∧
      (Rest.get_stock st pid).2.stock = st.stock ∧
      (Rest.get_stock st pid).2.stock_transactions = st.stock_transactions) := by
  refine ⟨?_, ?_, ?_⟩
  · intro st pid row h
    constructor <;> simp [Grpc.GetStock, Rest.get_stock, h]
  · intro st pid h
    constructor <;> simp [Grpc.GetStock, Rest.get_stock, h]
  · intro st pid
    refine ⟨?_, ?_, ?_, ?_⟩ <;>
      simp only [Grpc.GetStock, Rest.get_stock] <;>
      rcases latestSnapshot st pid with _ | row <;> rfl

/-- Witness for `C9_get_current_stock`: a store holding one snapshot of
quantity 7 for `"P"`, and the empty store for the no-record case. -/
theorem C9_get_current_stock_witness :
    (Grpc.GetStock ⟨[], [⟨"P", 7, "Warehouse-A"⟩], [], []⟩ "P").1
        = { product_id := "P", current_stock := 7, message := "Stock retrieved",
            status := Grpc.GStatus.OK } ∧
    (Rest.get_stock initStore "Q").1 = { status := 404, quantity := 0 } := by
  constructor
  · exact (C9_get_current_stock.1 ⟨[], [⟨"P", 7, "Warehouse-A"⟩], [], []⟩ "P"
      ⟨"P", 7, "Warehouse-A"⟩ (by decide)).1
  · exact (C9_get_current_stock.2.1 initStore "Q" (by decide)).2

/-- C10: confirmed. In the REST adapter `data.get('type', 'ADJUSTMENT')`
and `int(data.get('quantity', 0))` default an omitted type to ADJUSTMENT
and an omitted quantity to 0, so a request carrying only a `product_id`
absolutely sets that product's stock to 0: it succeeds with HTTP 200 and
commits one snapshot row of quantity 0 and one ADJUSTMENT transaction
row. -/
theorem C10_defaults_set_stock_to_zero :
    ∀ (st : Store) (pid tid : String),
      (Rest.update_stock st ⟨pid, none, none, none, none⟩ tid true true).1
          = Rest.UpdateResp.ok tid (currentQuantity st pid) 0 0 ∧
      (Rest.update_stock st ⟨pid, none, none, none, none⟩ tid true true).2.stock
          = st.stock ++ [{ product_id := pid, quantity := 0,
                           location := "Warehouse-A" }] ∧
      (Rest.update_stock st ⟨pid, none, none, none, none⟩
          tid true true).2.stock_transactions
          = st.stock_transactions
            ++ [{ txn_id := tid, product_id := pid, txn_type := "ADJUSTMENT",
                  quantity := 0, quantity_before := currentQuantity st pid,
                  quantity_after := 0, reason := "Manual update" }] := by
  intro st pid tid
  refine ⟨?_, ?_, ?_⟩ <;> simp [Rest.update_stock]

end Inventory
